import Mathlib

/-
Verification of the reditor editing core (src/buffer.rs, src/editor.rs).

Modelling conventions:
- Rows of text are lists of characters; Rust byte indices on valid char
  boundaries correspond to character indices.
- Machine integers (usize) are Nat. Rust saturating_sub is Nat subtraction.
  Where the source performs an operation that can panic (Vec::remove /
  Vec::insert / String::insert / String::remove on an out-of-range index,
  or an unchecked usize subtraction that would overflow, or an explicit
  unreachable / todo arm), the model returns none.
- editor.rs calls the buffer mutation methods with an explicit cursor
  argument while buffer.rs defines them against the buffer's own cursor;
  the shared method bodies are modelled once as content-level functions
  taking the position explicitly, with a Buffer-level wrapper applying
  them at the buffer's own cursor exactly as buffer.rs writes them.
- Terminal I/O is modelled as a trace of terminal operations; the event
  source is a script of read outcomes (an error, or an event).  An
  exhausted script is treated as a failing read.
-/

namespace Reditor

/-- Cursor from editor.rs: a pair of usize coordinates.  pos.rs's Pos has
the same shape (buffer.rs stores one as its cursor). -/
structure Cursor where
  x : Nat
  y : Nat
  deriving Repr, DecidableEq

abbrev Pos := Cursor

/-- Componentwise addition (impl Add for Cursor). -/
def Cursor.add (a b : Cursor) : Cursor :=
  { x := a.x + b.x, y := a.y + b.y }

/-- Componentwise subtraction (impl Sub for Cursor).  The source uses the
unchecked usize subtraction, which panics on underflow: modelled as none. -/
def Cursor.sub? (a b : Cursor) : Option Cursor :=
  if b.x ≤ a.x ∧ b.y ≤ a.y then some { x := a.x - b.x, y := a.y - b.y } else none

inductive Mode where
  | Normal
  | Insert
  deriving Repr, DecidableEq

inductive Direction where
  | Up
  | Down
  | Left
  | Right
  deriving Repr, DecidableEq

inductive Action where
  | Input (ch : Char)
  | Line (d : Direction)
  | Move (d : Direction)
  | Change (m : Mode) (d : Option Direction)
  | Delete
  | DeleteLine
  | Quit
  deriving Repr, DecidableEq

/-- A text row (Rust String, seen as its characters). -/
abbrev Row := List Char

/-- Buffer from buffer.rs. -/
structure Buffer where
  name : Option String
  content : List Row
  cursor : Pos
  deriving Repr, DecidableEq

/-- Insertion into a list at an index, as Vec::insert / String::insert do
for an in-range index.  Callers guard the range; out of range the Rust
call panics and the caller returns none. -/
def insertIdxL (l : List α) (i : Nat) (a : α) : List α :=
  l.take i ++ a :: l.drop i

/-- Removal from a list at an index, as Vec::remove / String::remove do
for an in-range index. -/
def removeIdxL (l : List α) (i : Nat) : List α :=
  l.take i ++ l.drop (i + 1)

/-- line_width on raw content: length of the requested row, none when the
row does not exist. -/
def lineWidth (content : List Row) (line : Nat) : Option Nat :=
  (content.get? line).map List.length

/-- Body of Buffer::insert_at at an explicit position: no-op when the row
is out of range (the get_mut guard); String::insert panics when the column
is past the end of the row. -/
def insertAtPos (content : List Row) (p : Pos) (ch : Char) : Option (List Row) :=
  match content.get? p.y with
  | none => some content
  | some line =>
    if p.x ≤ line.length then
      some (content.set p.y (insertIdxL line p.x ch))
    else none

/-- Buffer::new_line: Vec::insert of an empty row, panicking when the
index exceeds the current height. -/
def newLine (content : List Row) (at_ : Nat) : Option (List Row) :=
  if at_ ≤ content.length then some (insertIdxL content at_ []) else none

/-- Body of Buffer::break_line at an explicit position: no-op when the row
is out of range; the slice line[x..] panics when x is past the end. -/
def breakLineAt (content : List Row) (p : Pos) : Option (List Row) :=
  match content.get? p.y with
  | none => some content
  | some line =>
    if p.x ≤ line.length then
      some (insertIdxL (content.set p.y (line.take p.x)) (p.y + 1) (line.drop p.x))
    else none

/-- Character removal of Buffer::delete_at at an explicit position: no-op
when the row is out of range; String::remove panics when the column is out
of range. -/
def deleteAtPos (content : List Row) (p : Pos) : Option (List Row) :=
  match content.get? p.y with
  | none => some content
  | some line =>
    if p.x < line.length then
      some (content.set p.y (removeIdxL line p.x))
    else none

/-- Buffer::concat_lines: Vec::remove of row l1 (panicking when l1 is out
of range), then push_str of the removed text onto row l2 (guarded by
get_mut). -/
def concatLines (content : List Row) (l1 l2 : Nat) : Option (List Row) :=
  match content.get? l1 with
  | none => none
  | some s =>
    let c := removeIdxL content l1
    match c.get? l2 with
    | none => some c
    | some t => some (c.set l2 (t ++ s))

/-- Buffer::delete_line: Vec::remove, panicking when the index is out of
range. -/
def deleteLine (content : List Row) (line : Nat) : Option (List Row) :=
  if line < content.length then some (removeIdxL content line) else none

namespace Buffer

/-- Buffer::mock. -/
def mock : Buffer :=
  { name := none, content := ["Hello".toList, "Hi".toList], cursor := { x := 0, y := 0 } }

def line_width (b : Buffer) (line : Nat) : Option Nat :=
  lineWidth b.content line

def current_line_width (b : Buffer) : Option Nat :=
  b.line_width b.cursor.y

def height (b : Buffer) : Nat :=
  b.content.length

def insert_at (b : Buffer) (ch : Char) : Option Buffer :=
  (insertAtPos b.content b.cursor ch).map fun c => { b with content := c }

def new_line (b : Buffer) (at_ : Nat) : Option Buffer :=
  (newLine b.content at_).map fun c => { b with content := c }

def break_line (b : Buffer) : Option Buffer :=
  (breakLineAt b.content b.cursor).map fun c => { b with content := c }

/-- Buffer::delete_at(direction): the target position is the cursor
shifted vertically by the direction (Up subtracts one row with the
unchecked Pos subtraction, Down adds one), then one character is removed
there. -/
def delete_at (b : Buffer) (direction : Option Direction) : Option Buffer := do
  let p ← match direction with
    | some Direction.Up => b.cursor.sub? { x := 0, y := 1 }
    | some Direction.Down => some (b.cursor.add { x := 0, y := 1 })
    | _ => some b.cursor
  let c ← deleteAtPos b.content p
  some { b with content := c }

def concat_lines (b : Buffer) (l1 l2 : Nat) : Option Buffer :=
  (concatLines b.content l1 l2).map fun c => { b with content := c }

def delete_line (b : Buffer) (line : Nat) : Option Buffer :=
  (deleteLine b.content line).map fun c => { b with content := c }

def move_cursor_start_of_the_line (b : Buffer) : Buffer :=
  { b with cursor := { x := 0, y := b.cursor.y } }

def move_cursor_end_of_the_line (b : Buffer) : Buffer :=
  { b with cursor := { x := b.current_line_width.getD 0, y := b.cursor.y } }

/-- Buffer::handle_cursor_movment (buffer.rs 92-119).  Nat subtraction is
Rust saturating_sub.  In the Right arm, Normal mode performs the unchecked
`width -= 1`, which overflows when the line is empty: modelled as none. -/
def handle_cursor_movment (b : Buffer) (mode : Mode) (direction : Direction) : Option Buffer :=
  match direction with
  | Direction.Up =>
    let line := b.cursor.y - 1
    let width := (b.line_width line).getD 0 - 1
    some { b with cursor := { x := min width b.cursor.x, y := line } }
  | Direction.Down =>
    let line := min (b.height - 1) (b.cursor.y + 1)
    let width := (b.line_width line).getD 0 - 1
    some { b with cursor := { x := min width b.cursor.x, y := line } }
  | Direction.Left =>
    some { b with cursor := { x := b.cursor.x - 1, y := b.cursor.y } }
  | Direction.Right =>
    let width := (b.line_width b.cursor.y).getD 0
    match mode with
    | Mode.Normal =>
      if width = 0 then none
      else some { b with cursor := { x := min (width - 1) (b.cursor.x + 1), y := b.cursor.y } }
    | Mode.Insert =>
      some { b with cursor := { x := min width (b.cursor.x + 1), y := b.cursor.y } }

end Buffer

/-- Editor from editor.rs: buffer collection, active index, mode, and the
editor's own cursor. -/
structure Editor where
  buffers : List Buffer
  current_buf_idx : Nat
  mode : Mode
  cursor : Cursor
  deriving Repr, DecidableEq

namespace Editor

/-- Editor::default / Editor::new: one mock buffer, Normal mode, origin
cursor. -/
def initial : Editor :=
  { buffers := [Buffer.mock], current_buf_idx := 0, mode := Mode.Normal,
    cursor := { x := 0, y := 0 } }

def current_buf (e : Editor) : Option Buffer :=
  e.buffers.get? e.current_buf_idx

/-- Replace the active buffer's content (the effect of mutating through
current_buf_mut). -/
def withContent (e : Editor) (b : Buffer) (c : List Row) : Editor :=
  { e with buffers := e.buffers.set e.current_buf_idx { b with content := c } }

def move_cursor_start_of_the_line (e : Editor) : Editor :=
  { e with cursor := { x := 0, y := e.cursor.y } }

/-- Editor::move_cursor_end_of_the_line (editor.rs 244-248).  The source
looks up line_width at cursor.x (not cursor.y), faithfully kept. -/
def move_cursor_end_of_the_line (e : Editor) : Editor :=
  match e.current_buf with
  | none => e
  | some buf =>
    { e with cursor := { x := (lineWidth buf.content e.cursor.x).getD 0, y := e.cursor.y } }

/-- Editor::handle_cursor_movment (editor.rs 250-287): same clamping logic
as the Buffer version, reading the active buffer and moving the editor's
cursor; early return when there is no active buffer. -/
def handle_cursor_movment (e : Editor) (direction : Direction) : Option Editor :=
  match e.current_buf with
  | none => some e
  | some buf =>
    match direction with
    | Direction.Up =>
      let line := e.cursor.y - 1
      let width := (lineWidth buf.content line).getD 0 - 1
      some { e with cursor := { x := min width e.cursor.x, y := line } }
    | Direction.Down =>
      let line := min (buf.content.length - 1) (e.cursor.y + 1)
      let width := (lineWidth buf.content line).getD 0 - 1
      some { e with cursor := { x := min width e.cursor.x, y := line } }
    | Direction.Left =>
      some { e with cursor := { x := e.cursor.x - 1, y := e.cursor.y } }
    | Direction.Right =>
      let width := (lineWidth buf.content e.cursor.y).getD 0
      match e.mode with
      | Mode.Normal =>
        if width = 0 then none
        else some { e with cursor := { x := min (width - 1) (e.cursor.x + 1), y := e.cursor.y } }
      | Mode.Insert =>
        some { e with cursor := { x := min width (e.cursor.x + 1), y := e.cursor.y } }

/-- One dispatch of the match on (action, mode) in Editor::execute
(editor.rs 121-214).  none models a panic (an unreachable or todo arm, or
a panicking buffer operation); Quit leaves the state unchanged (the loop
break is modelled in the execute loop below).  Terminal drawing calls
inside the arms are external output and carry no editor state. -/
def step (e : Editor) (a : Action) : Option Editor :=
  match a, e.mode with
  | Action.Move d, _ => e.handle_cursor_movment d
  | Action.Quit, _ => some e
  | Action.Change m (some d), _ =>
    Editor.handle_cursor_movment { e with mode := m } d
  | Action.Change m none, _ => some { e with mode := m }
  | Action.Delete, Mode.Insert =>
    if e.cursor.x = 0 ∧ 0 < e.cursor.y then do
      let e1 ← e.handle_cursor_movment Direction.Up
      let e2 := e1.move_cursor_end_of_the_line
      let cursor := e2.cursor
      match e2.current_buf with
      | none => some e2
      | some buf => do
        let c ← concatLines buf.content (cursor.y + 1) cursor.y
        some (e2.withContent buf c)
    else if 0 < e.cursor.x then do
      let cursor := e.cursor
      match e.current_buf with
      | none => some e
      | some buf => do
        let p ← cursor.sub? { x := 1, y := 0 }
        let c ← deleteAtPos buf.content p
        Editor.handle_cursor_movment (e.withContent buf c) Direction.Left
    else some e
  | Action.Delete, Mode.Normal => some e
  | Action.Input ch, Mode.Insert =>
    match e.current_buf with
    | none => some e
    | some buf => do
      let c ← insertAtPos buf.content e.cursor ch
      Editor.handle_cursor_movment (e.withContent buf c) Direction.Right
  | Action.Input _, Mode.Normal => none
  | Action.Line d, Mode.Normal =>
    match e.current_buf with
    | none => some e
    | some buf =>
      match d with
      | Direction.Up => do
        let c ← newLine buf.content e.cursor.y
        some { e.withContent buf c with mode := Mode.Insert }
      | Direction.Down => do
        let c ← newLine buf.content (e.cursor.y + 1)
        let e1 ← Editor.handle_cursor_movment (e.withContent buf c) Direction.Down
        some { e1 with mode := Mode.Insert }
      | Direction.Left => none
      | Direction.Right => none
  | Action.Line d, Mode.Insert =>
    match e.current_buf with
    | none => some e
    | some buf =>
      match d with
      | Direction.Up => do
        let c ← breakLineAt buf.content e.cursor
        some { e.withContent buf c with mode := Mode.Insert }
      | Direction.Down => do
        let c ← breakLineAt buf.content e.cursor
        let e1 ← Editor.handle_cursor_movment (e.withContent buf c) Direction.Down
        some { e1.move_cursor_start_of_the_line with mode := Mode.Insert }
      | Direction.Left => none
      | Direction.Right => none
  | Action.DeleteLine, Mode.Normal =>
    match e.current_buf with
    | none => some e
    | some buf => do
      let c ← deleteLine buf.content e.cursor.y
      Editor.handle_cursor_movment (e.withContent buf c) Direction.Up
  | Action.DeleteLine, Mode.Insert => none

/-- Apply a sequence of dispatched actions. -/
def run (e : Editor) : List Action → Option Editor
  | [] => some e
  | a :: rest =>
    match e.step a with
    | none => none
    | some e1 => e1.run rest

end Editor

/-- The crossterm key codes the program distinguishes; every other named
key is collapsed into OtherKey. -/
inductive KeyCode where
  | Esc
  | Enter
  | Backspace
  | Char (c : Char)
  | OtherKey
  deriving Repr, DecidableEq

/-- Key modifiers: only CONTROL is ever inspected. -/
structure KeyModifiers where
  control : Bool
  deriving Repr, DecidableEq

structure KeyEvent where
  code : KeyCode
  modifiers : KeyModifiers
  deriving Repr, DecidableEq

/-- A crossterm event: a key event, or any other event kind (resize,
mouse, ...), which both resolvers ignore. -/
inductive Event where
  | Key (k : KeyEvent)
  | OtherEvent
  deriving Repr, DecidableEq

/-- Normal-mode resolver (impl HandleEvent for Normal, editor.rs 321-340). -/
def Normal.handle (event : Event) : Option Action :=
  match event with
  | Event.Key ev =>
    match ev.code with
    | KeyCode.Char 'j' => some (Action.Move Direction.Down)
    | KeyCode.Char 'k' => some (Action.Move Direction.Up)
    | KeyCode.Char 'h' => some (Action.Move Direction.Left)
    | KeyCode.Char 'l' => some (Action.Move Direction.Right)
    | KeyCode.Char 'i' => some (Action.Change Mode.Insert none)
    | KeyCode.Char 'a' => some (Action.Change Mode.Insert (some Direction.Right))
    | KeyCode.Char 'O' => some (Action.Line Direction.Up)
    | KeyCode.Char 'o' => some (Action.Line Direction.Down)
    | KeyCode.Char 'q' => some Action.Quit
    | KeyCode.Char 'D' => some Action.DeleteLine
    | _ => none
  | Event.OtherEvent => none

/-- Insert-mode resolver (impl HandleEvent for Insert, editor.rs 344-360).
The guarded arm for control-[ precedes the general character arm, so an
unmodified [ resolves to Input. -/
def Insert.handle (event : Event) : Option Action :=
  match event with
  | Event.Key ev =>
    match ev.code with
    | KeyCode.Esc => some (Action.Change Mode.Normal (some Direction.Left))
    | KeyCode.Enter => some (Action.Line Direction.Down)
    | KeyCode.Backspace => some Action.Delete
    | KeyCode.Char ch =>
      if ch = '[' ∧ ev.modifiers.control then
        some (Action.Change Mode.Normal (some Direction.Left))
      else
        some (Action.Input ch)
    | KeyCode.OtherKey => none
  | Event.OtherEvent => none

/-- Restatement of the spec's Insert resolution table in its own words
(for the refinement claim about the Insert resolver): Esc or
control-modified [ step back to Normal with a Left nudge; Enter breaks the
line downward; Backspace deletes; a character key inserts that character;
everything else resolves to none.  Character keys delivered by the
terminal are the printable characters. -/
def insertResolverSpec (event : Event) : Option Action :=
  match event with
  | Event.Key ev =>
    if ev.code = KeyCode.Esc ∨ (ev.code = KeyCode.Char '[' ∧ ev.modifiers.control = true) then
      some (Action.Change Mode.Normal (some Direction.Left))
    else if ev.code = KeyCode.Enter then
      some (Action.Line Direction.Down)
    else if ev.code = KeyCode.Backspace then
      some Action.Delete
    else
      match ev.code with
      | KeyCode.Char c => some (Action.Input c)
      | _ => none
  | Event.OtherEvent => none

/-- The terminal-control operations Editor::execute performs, in program
order.  In-loop queued redraw output is summarised as DrawBuffer. -/
inductive TermOp where
  | EnterAlternateScreen
  | ClearAll
  | EnableRawMode
  | DrawBuffer
  | MoveCursor
  | Flush
  | DisableRawMode
  | LeaveAlternateScreen
  deriving Repr, DecidableEq

/-- Outcome of one blocking event::read: an I/O error, or an event. -/
inductive ReadResult where
  | ReadErr
  | ReadOk (e : Event)
  deriving Repr, DecidableEq

/-- The dispatch loop of Editor::execute (editor.rs 108-215) over a script
of read outcomes, accumulating the trace of terminal operations.  Each
iteration queues MoveCursor and Flush, then reads; a read error is
propagated immediately by the question-mark operator, returning from
execute without reaching the restoration code after the loop; an
unresolved event continues; Quit breaks the loop; any other action is
dispatched, a panicking dispatch (none) likewise unwinding without
restoration.  An exhausted script is treated as a failing read. -/
def executeLoop (e : Editor) (inputs : List ReadResult) (tr : List TermOp) :
    List TermOp × Except Unit Editor :=
  match inputs with
  | [] => (tr ++ [TermOp.MoveCursor, TermOp.Flush], Except.error ())
  | r :: rest =>
    let tr1 := tr ++ [TermOp.MoveCursor, TermOp.Flush]
    match r with
    | ReadResult.ReadErr => (tr1, Except.error ())
    | ReadResult.ReadOk ev =>
      match (match e.mode with
             | Mode.Normal => Normal.handle ev
             | Mode.Insert => Insert.handle ev) with
      | none => executeLoop e rest tr1
      | some Action.Quit =>
        (tr1 ++ [TermOp.DisableRawMode, TermOp.LeaveAlternateScreen], Except.ok e)
      | some a =>
        match e.step a with
        | none => (tr1, Except.error ())
        | some e1 => executeLoop e1 rest (tr1 ++ [TermOp.DrawBuffer])

/-- Editor::execute (editor.rs 98-222): enter the alternate screen, clear,
enable raw mode, draw, then run the dispatch loop.  Raw mode is disabled
and the alternate screen left only after the loop terminates through the
Quit break. -/
def Editor.execute (e : Editor) (inputs : List ReadResult) :
    List TermOp × Except Unit Editor :=
  executeLoop e inputs
    [TermOp.EnterAlternateScreen, TermOp.ClearAll, TermOp.EnableRawMode, TermOp.DrawBuffer]

/-- The cursor invariant stated in the spec, checked on the active buffer:
the row index is below the height, and the column respects the
mode-specific bound (strictly below the line width in Normal mode, with
column 0 tolerated on an empty line; at most the line width in Insert
mode). -/
def checkCursorInvariant (e : Editor) : Bool :=
  match e.current_buf with
  | none => false
  | some b =>
    decide (e.cursor.y < b.height) &&
    (match e.mode with
     | Mode.Normal =>
       decide (e.cursor.x < (b.line_width e.cursor.y).getD 0) ||
       (decide ((b.line_width e.cursor.y).getD 0 = 0) && decide (e.cursor.x = 0))
     | Mode.Insert => decide (e.cursor.x ≤ (b.line_width e.cursor.y).getD 0))

/-- The editor state reached from the initial state by dispatching
DeleteLine twice: the sole buffer has no rows left. -/
def deadState : Editor :=
  { buffers := [{ name := none, content := [], cursor := { x := 0, y := 0 } }],
    current_buf_idx := 0, mode := Mode.Normal, cursor := { x := 0, y := 0 } }

/-- Two-row editor state for the backspace line-join scenario: mock
content, Insert mode, cursor at column 0 of row 1. -/
def joinStart : Editor :=
  { buffers := [{ name := none, content := ["Hello".toList, "Hi".toList], cursor := { x := 0, y := 0 } }],
    current_buf_idx := 0, mode := Mode.Insert, cursor := { x := 0, y := 1 } }

/-- The state produced by dispatching Delete from joinStart. -/
def joinResult : Editor :=
  { buffers := [{ name := none, content := ["HelloHi".toList], cursor := { x := 0, y := 0 } }],
    current_buf_idx := 0, mode := Mode.Insert, cursor := { x := 5, y := 0 } }

/-- The mock buffer with its cursor placed at column 2 of row 0, used to
instantiate the split/join round trip. -/
def roundtripBuffer : Buffer :=
  { name := none, content := ["Hello".toList, "Hi".toList], cursor := { x := 2, y := 0 } }

/-- Setting the element just after a prefix of known length. -/
theorem set_at_length (A B : List α) (a v : α) : (A ++ a :: B).set A.length v = A ++ v :: B := by
  induction A with
  | nil => rfl
  | cons x A ih =>
    show x :: (A ++ a :: B).set A.length v = x :: (A ++ v :: B)
    rw [ih]

/-- Reading the element just after a prefix of known length. -/
theorem getQ_at_length (A B : List α) (a : α) : (A ++ a :: B).get? A.length = some a := by
  induction A with
  | nil => rfl
  | cons x A ih =>
    show (A ++ a :: B).get? A.length = some a
    exact ih

/-- Reading one position further. -/
theorem getQ_at_length_succ (A B : List α) (v w : α) :
    (A ++ v :: w :: B).get? (A.length + 1) = some w := by
  induction A with
  | nil => rfl
  | cons x A ih =>
    show (A ++ v :: w :: B).get? (A.length + 1) = some w
    exact ih

/-- Inserting one position past a prefix of known length. -/
theorem insertIdxL_at_length_succ (A B : List α) (v w : α) :
    insertIdxL (A ++ v :: B) (A.length + 1) w = A ++ v :: w :: B := by
  induction A with
  | nil => rfl
  | cons x A ih =>
    show x :: insertIdxL (A ++ v :: B) (A.length + 1) w = x :: (A ++ v :: w :: B)
    rw [ih]

/-- Removing one position past a prefix of known length. -/
theorem removeIdxL_at_length_succ (A B : List α) (v w : α) :
    removeIdxL (A ++ v :: w :: B) (A.length + 1) = A ++ v :: B := by
  induction A with
  | nil => rfl
  | cons x A ih =>
    show x :: removeIdxL (A ++ v :: w :: B) (A.length + 1) = x :: (A ++ v :: B)
    rw [ih]

/-- A successful indexed lookup splits the list around the found element. -/
theorem getQ_decomp (c : List α) (y : Nat) (L : α) (h : c.get? y = some L) :
    ∃ A B, c = A ++ L :: B ∧ A.length = y := by
  induction c generalizing y with
  | nil => simp [List.get?] at h
  | cons a c ih =>
    cases y with
    | zero =>
      refine ⟨[], c, ?_, rfl⟩
      simp [List.get?] at h
      rw [h]
      rfl
    | succ y =>
      obtain ⟨A, B, hc, hl⟩ := ih y h
      exact ⟨a :: A, B, by rw [List.cons_append, hc], by simp [hl]⟩

/-- Claim C4: splitting the row under the cursor with break_line and then
joining the two resulting rows with concat_lines (y + 1, y) restores the
buffer content exactly: for every buffer, row index y below the height and
column x at most the line width, with the cursor at (x, y). -/
theorem claim4_break_then_concat_restores_lines
    (b : Buffer) (x y : Nat) (hc : b.cursor = { x := x, y := y })
    (hy : y < b.height) (hx : x ≤ (b.line_width y).getD 0) :
    ∃ b1 b2, b.break_line = some b1 ∧ b1.concat_lines (y + 1) y = some b2 ∧
      b2.content = b.content := by
  obtain ⟨L, hL⟩ : ∃ L, b.content.get? y = some L := by
    cases hg : b.content.get? y with
    | none =>
      exfalso
      have hlen : b.content.length ≤ y := List.get?_eq_none.mp hg
      exact absurd hy (by simpa [Buffer.height] using Nat.not_lt.mpr hlen)
    | some L => exact ⟨L, rfl⟩
  have hx' : x ≤ L.length := by
    rw [Buffer.line_width, lineWidth, hL] at hx
    simpa using hx
  obtain ⟨A, B, hcb, hlen⟩ := getQ_decomp b.content y L hL
  subst hlen
  have hbreak : b.break_line =
      some { b with content := A ++ L.take x :: L.drop x :: B } := by
    unfold Buffer.break_line breakLineAt
    rw [hc]
    dsimp only
    rw [hL]
    dsimp only
    rw [if_pos hx', hcb, set_at_length, insertIdxL_at_length_succ]
    rfl
  have hconcat : Buffer.concat_lines { b with content := A ++ L.take x :: L.drop x :: B }
      (A.length + 1) A.length = some { b with content := A ++ L :: B } := by
    simp only [Buffer.concat_lines, concatLines, getQ_at_length_succ,
      removeIdxL_at_length_succ, getQ_at_length, set_at_length, List.take_append_drop]
    rfl
  exact ⟨_, _, hbreak, hconcat, by rw [hcb]⟩

/-- Witness for claim C4 at the mock buffer with the cursor at (2, 0). -/
theorem claim4_witness :
    ∃ b1 b2, Buffer.break_line roundtripBuffer = some b1 ∧
      b1.concat_lines 1 0 = some b2 ∧
      b2.content = roundtripBuffer.content :=
  claim4_break_then_concat_restores_lines roundtripBuffer 2 0 rfl (by decide) (by decide)

/-- Claim C1: the cursor invariant (row below height, column within the
mode-specific bound) is claimed to hold in every state reachable from the
initial state.  Refuted: dispatching DeleteLine twice (both producible by
the Normal resolver from the key D) removes both rows of the mock buffer,
reaching a state whose active buffer has height 0 while cursor.y = 0, so
cursor.y < height() fails. -/
theorem claim1_invariant_violated_after_two_delete_lines :
    Editor.run Editor.initial [Action.DeleteLine, Action.DeleteLine] = some deadState ∧
    checkCursorInvariant deadState = false ∧
    deadState.cursor.y = 0 ∧
    deadState.current_buf = some { name := none, content := [], cursor := { x := 0, y := 0 } } :=
  ⟨rfl, rfl, rfl, rfl⟩

/-- Claim C2: in Normal mode Move(Right) is claimed never to move past
column w - 1 and to complete without error on an empty line.  Refuted on
the empty line: the bound computation performs the unchecked subtraction
width - 1 with width = 0, which overflows (a panic under overflow checks,
a wrap to the maximal usize in release builds), modelled as none; on a
non-empty line the w - 1 bound does hold, as the second conjunct shows on
a width-2 line with the cursor already at column 1. -/
theorem claim2_normal_right_underflows_on_empty_line :
    Buffer.handle_cursor_movment
      { name := none, content := [[]], cursor := { x := 0, y := 0 } }
      Mode.Normal Direction.Right = none ∧
    Buffer.handle_cursor_movment
      { name := none, content := ["Hi".toList], cursor := { x := 1, y := 0 } }
      Mode.Normal Direction.Right =
      some { name := none, content := ["Hi".toList], cursor := { x := 1, y := 0 } } :=
  ⟨rfl, rfl⟩

/-- Claim C5: Editor::execute is claimed to restore the terminal (disable
raw mode, leave the alternate screen) on every exit path.  The first
conjunct shows the normal Quit exit does restore it; the second shows the
error exit does not: when the first event read fails, execute returns the
error with a terminal-operation trace that ends at the failing read and
contains neither DisableRawMode nor LeaveAlternateScreen, because the
question-mark propagation returns before the restoration code after the
loop. -/
theorem claim5_terminal_restored_only_on_quit_exit :
    Editor.execute Editor.initial
      [ReadResult.ReadOk (Event.Key { code := KeyCode.Char 'q', modifiers := { control := false } })] =
      ([TermOp.EnterAlternateScreen, TermOp.ClearAll, TermOp.EnableRawMode, TermOp.DrawBuffer,
        TermOp.MoveCursor, TermOp.Flush, TermOp.DisableRawMode, TermOp.LeaveAlternateScreen],
       Except.ok Editor.initial) ∧
    Editor.execute Editor.initial [ReadResult.ReadErr] =
      ([TermOp.EnterAlternateScreen, TermOp.ClearAll, TermOp.EnableRawMode, TermOp.DrawBuffer,
        TermOp.MoveCursor, TermOp.Flush],
       Except.error ()) ∧
    ((Editor.execute Editor.initial [ReadResult.ReadErr]).1.contains TermOp.DisableRawMode = false) ∧
    ((Editor.execute Editor.initial [ReadResult.ReadErr]).1.contains TermOp.LeaveAlternateScreen = false) :=
  ⟨rfl, rfl, rfl, rfl⟩

/-- Claim C6: every Buffer operation on an out-of-range row or column is
claimed to be a defensive no-op.  Refuted: delete_line and concat_lines on
an out-of-range row index panic (Vec::remove), and insert_at, break_line
and delete_at with a column past the end of the row panic (String::insert,
byte slicing, String::remove), all evaluated here on the two-line mock
buffer; only the out-of-range-row guards of the get-based operations are
no-ops. -/
theorem claim6_out_of_range_ops_panic_instead_of_noop :
    Buffer.delete_line Buffer.mock 2 = none ∧
    Buffer.concat_lines Buffer.mock 2 0 = none ∧
    Buffer.insert_at { Buffer.mock with cursor := { x := 7, y := 0 } } 'z' = none ∧
    Buffer.break_line { Buffer.mock with cursor := { x := 7, y := 0 } } = none ∧
    Buffer.delete_at { Buffer.mock with cursor := { x := 5, y := 0 } } none = none ∧
    Buffer.insert_at { Buffer.mock with cursor := { x := 0, y := 9 } } 'z' =
      some { Buffer.mock with cursor := { x := 0, y := 9 } } :=
  ⟨rfl, rfl, rfl, rfl, rfl, rfl⟩

/-- Claim C7: the Insert-mode resolver maps Esc and control-modified [ to
ChangeMode(Normal, Some(Left)), Enter to Line(Down), Backspace to Delete,
a character key c to Input(c), and every other event to none — exactly
the table stated by the spec (restated as insertResolverSpec). -/
theorem claim7_insert_resolver_matches_spec_table :
    ∀ event : Event, Insert.handle event = insertResolverSpec event := by
  intro event
  match event with
  | Event.OtherEvent => rfl
  | Event.Key ev =>
    match ev with
    | { code := code, modifiers := m } =>
      match code with
      | KeyCode.Esc => rfl
      | KeyCode.Enter => rfl
      | KeyCode.Backspace => rfl
      | KeyCode.OtherKey => rfl
      | KeyCode.Char c =>
        by_cases hc : c = '['
        · by_cases hm : m.control = true
          · simp [Insert.handle, insertResolverSpec, hc, hm]
          · simp [Insert.handle, insertResolverSpec, hc, hm]
        · simp [Insert.handle, insertResolverSpec, hc]

/-- Witness for claim C7 at the Enter key. -/
theorem claim7_witness :
    Insert.handle (Event.Key { code := KeyCode.Enter, modifiers := { control := false } }) =
      insertResolverSpec (Event.Key { code := KeyCode.Enter, modifiers := { control := false } }) :=
  claim7_insert_resolver_matches_spec_table
    (Event.Key { code := KeyCode.Enter, modifiers := { control := false } })

/-- Moving the cursor never touches the buffer collection, the active
index or the mode. -/
theorem hcm_editor_preserves_buffers (e : Editor) (d : Direction) (e1 : Editor)
    (h : e.handle_cursor_movment d = some e1) :
    e1.buffers = e.buffers ∧ e1.current_buf_idx = e.current_buf_idx ∧ e1.mode = e.mode := by
  unfold Editor.handle_cursor_movment at h
  cases hb : e.current_buf with
  | none =>
    rw [hb] at h
    injection h with h2
    subst h2
    exact ⟨rfl, rfl, rfl⟩
  | some buf =>
    rw [hb] at h
    cases d with
    | Up =>
      injection h with h2
      subst h2
      exact ⟨rfl, rfl, rfl⟩
    | Down =>
      injection h with h2
      subst h2
      exact ⟨rfl, rfl, rfl⟩
    | Left =>
      injection h with h2
      subst h2
      exact ⟨rfl, rfl, rfl⟩
    | Right =>
      cases hm : e.mode with
      | Normal =>
        rw [hm] at h
        dsimp only at h
        split at h
        · exact absurd h (by simp)
        · injection h with h2
          subst h2
          exact ⟨rfl, rfl, rfl⟩
      | Insert =>
        rw [hm] at h
        dsimp only at h
        injection h with h2
        subst h2
        exact ⟨rfl, rfl, rfl⟩

/-- Claim C9: dispatching any ChangeMode action — with or without a
post-switch nudge, between any modes — never modifies any buffer: the
buffer collection (hence every buffer's lines) and the active index are
unchanged; only the mode and possibly the editor cursor change. -/
theorem claim9_change_mode_preserves_buffers (e : Editor) (m : Mode) (d : Option Direction)
    (e1 : Editor) (h : e.step (Action.Change m d) = some e1) :
    e1.buffers = e.buffers ∧ e1.current_buf_idx = e.current_buf_idx := by
  cases d with
  | none =>
    unfold Editor.step at h
    dsimp only at h
    injection h with h2
    subst h2
    exact ⟨rfl, rfl⟩
  | some dir =>
    unfold Editor.step at h
    dsimp only at h
    have h3 := hcm_editor_preserves_buffers { e with mode := m } dir e1 h
    exact ⟨h3.1, h3.2.1⟩

/-- Witness for claim C9: entering Insert mode from the initial state by
ChangeMode(Insert, None) preserves the buffer collection. -/
theorem claim9_witness :
    ({ Editor.initial with mode := Mode.Insert } : Editor).buffers = Editor.initial.buffers ∧
    ({ Editor.initial with mode := Mode.Insert } : Editor).current_buf_idx =
      Editor.initial.current_buf_idx :=
  claim9_change_mode_preserves_buffers Editor.initial Mode.Insert none
    { Editor.initial with mode := Mode.Insert } rfl

/-- Claim C10: the Up and Down arms of handle_cursor_movment clamp the
column identically in both modes — the new column is the minimum of the
old column and the target row's width minus one with saturating
subtraction (so 0 for an empty or missing target row) — in the Buffer
version and, whenever an active buffer exists, in the Editor version. -/
theorem claim10_vertical_clamp_mode_independent :
    (∀ (b : Buffer) (m : Mode),
      b.handle_cursor_movment m Direction.Up =
        some { b with cursor :=
          { x := min ((b.line_width (b.cursor.y - 1)).getD 0 - 1) b.cursor.x,
            y := b.cursor.y - 1 } } ∧
      b.handle_cursor_movment m Direction.Down =
        some { b with cursor :=
          { x := min ((b.line_width (min (b.height - 1) (b.cursor.y + 1))).getD 0 - 1) b.cursor.x,
            y := min (b.height - 1) (b.cursor.y + 1) } }) ∧
    (∀ (e : Editor) (buf : Buffer), e.current_buf = some buf →
      e.handle_cursor_movment Direction.Up =
        some { e with cursor :=
          { x := min ((lineWidth buf.content (e.cursor.y - 1)).getD 0 - 1) e.cursor.x,
            y := e.cursor.y - 1 } } ∧
      e.handle_cursor_movment Direction.Down =
        some { e with cursor :=
          { x := min ((lineWidth buf.content (min (buf.content.length - 1) (e.cursor.y + 1))).getD 0 - 1)
                   e.cursor.x,
            y := min (buf.content.length - 1) (e.cursor.y + 1) } }) := by
  constructor
  · intro b m
    exact ⟨rfl, rfl⟩
  · intro e buf h
    constructor
    · unfold Editor.handle_cursor_movment
      rw [h]
    · unfold Editor.handle_cursor_movment
      rw [h]

/-- Witness for claim C10: the Editor-level Up clamp at the initial
state. -/
theorem claim10_witness :
    Editor.initial.handle_cursor_movment Direction.Up =
      some { Editor.initial with cursor :=
        { x := min ((lineWidth Buffer.mock.content (Editor.initial.cursor.y - 1)).getD 0 - 1)
                 Editor.initial.cursor.x,
          y := Editor.initial.cursor.y - 1 } } :=
  (claim10_vertical_clamp_mode_independent.2 Editor.initial Buffer.mock rfl).1

/-- Claim C3 counterexample: from the two-row buffer Hello / Hi with the
cursor at (0, 1) in Insert mode, Backspace joins the rows into HelloHi and
height drops to 1 as claimed, but the cursor column is 5 — the length of
the first row, the join point — not 7, the length of the joined row as the
claim states. -/
theorem claim3_counterexample_cursor_at_join_point :
    Editor.step joinStart Action.Delete = some joinResult ∧
    joinResult.cursor.x ≠ ("Hello".toList ++ "Hi".toList).length :=
  ⟨rfl, by decide⟩

/-- Claim C3 as amended: for a buffer of exactly two rows r0 and r1 with
the cursor at (0, 1) in Insert mode, dispatching Delete joins the rows
into the single row r0 ++ r1, the height decreases from 2 to 1, the
cursor ends on row 0, and its column is the length of r0 — the join
point — rather than the length of the joined row. -/
theorem claim3_amended_backspace_join (r0 r1 : Row) (nm : Option String) (bc : Pos) :
    Editor.step
      { buffers := [{ name := nm, content := [r0, r1], cursor := bc }],
        current_buf_idx := 0, mode := Mode.Insert, cursor := { x := 0, y := 1 } }
      Action.Delete =
    some { buffers := [{ name := nm, content := [r0 ++ r1], cursor := bc }],
           current_buf_idx := 0, mode := Mode.Insert,
           cursor := { x := r0.length, y := 0 } } := by
  simp [Editor.step, Editor.handle_cursor_movment, Editor.current_buf,
    Editor.move_cursor_end_of_the_line, Editor.withContent, lineWidth, concatLines,
    removeIdxL, List.get?, Buffer.height]

/-- Witness for claim C3 (amended) at the mock rows. -/
theorem claim3_witness :
    Editor.step
      { buffers := [{ name := none, content := ["Hello".toList, "Hi".toList],
                      cursor := { x := 0, y := 0 } }],
        current_buf_idx := 0, mode := Mode.Insert, cursor := { x := 0, y := 1 } }
      Action.Delete =
    some { buffers := [{ name := none, content := ["Hello".toList ++ "Hi".toList],
                         cursor := { x := 0, y := 0 } }],
           current_buf_idx := 0, mode := Mode.Insert,
           cursor := { x := ("Hello".toList).length, y := 0 } } :=
  claim3_amended_backspace_join "Hello".toList "Hi".toList none { x := 0, y := 0 }

/-- Claim C8 counterexample: with the mock buffer in Insert mode and the
cursor at (2, 0), dispatching Line(Up) splits row 0 into He and llo as
claimed, but the cursor stays at column 2 — it is not moved to the start
of the line as the claim states. -/
theorem claim8_counterexample_cursor_not_moved :
    Editor.step { Editor.initial with mode := Mode.Insert, cursor := { x := 2, y := 0 } }
      (Action.Line Direction.Up) =
      some { buffers := [{ name := none,
                           content := ["He".toList, "llo".toList, "Hi".toList],
                           cursor := { x := 0, y := 0 } }],
             current_buf_idx := 0, mode := Mode.Insert, cursor := { x := 2, y := 0 } } ∧
    (2 : Nat) ≠ 0 :=
  ⟨rfl, by decide⟩

/-- Claim C8 as amended: dispatching Line(Up) in Insert mode splits the
current line at the cursor via break_line — the text left of cursor.x
stays on row cursor.y and the rest becomes a new row at cursor.y + 1 —
the mode remains Insert, and the cursor is left unchanged (it is not
moved to the start of the line). -/
theorem claim8_amended_line_up_splits_without_moving_cursor
    (e : Editor) (buf : Buffer) (L : Row)
    (hmode : e.mode = Mode.Insert)
    (hbuf : e.current_buf = some buf)
    (hrow : buf.content.get? e.cursor.y = some L)
    (hx : e.cursor.x ≤ L.length) :
    e.step (Action.Line Direction.Up) =
      some { e.withContent buf
               (insertIdxL (buf.content.set e.cursor.y (L.take e.cursor.x))
                 (e.cursor.y + 1) (L.drop e.cursor.x))
             with mode := Mode.Insert } := by
  unfold Editor.step
  rw [hmode]
  dsimp only
  rw [hbuf]
  dsimp only
  unfold breakLineAt
  rw [hrow]
  dsimp only
  rw [if_pos hx]
  rfl

/-- Witness for claim C8 (amended) at the mock buffer with the cursor at
(2, 0) in Insert mode. -/
theorem claim8_witness :
    Editor.step { Editor.initial with mode := Mode.Insert, cursor := { x := 2, y := 0 } }
      (Action.Line Direction.Up) =
      some { Editor.withContent
               { Editor.initial with mode := Mode.Insert, cursor := { x := 2, y := 0 } }
               Buffer.mock
               (insertIdxL (Buffer.mock.content.set 0 ("Hello".toList.take 2)) 1
                 ("Hello".toList.drop 2))
             with mode := Mode.Insert } :=
  claim8_amended_line_up_splits_without_moving_cursor
    { Editor.initial with mode := Mode.Insert, cursor := { x := 2, y := 0 } }
    Buffer.mock "Hello".toList rfl rfl rfl (by decide)

end Reditor
